import Mathlib

/-!
Verification development for the kvdb Python client SDK
(src/sdk/python/kvdb_client: client.py, types.py, exceptions.py).

The client is pure protocol marshalling: each logical operation builds a
wire request, hands it to a transport (a gRPC stub or an HTTP session) and
unwraps the answer of the transport into a typed result or a raised error.  The
embedding makes the transport explicit: every adapter takes the stub or
session behaviour as a function argument (request to wire outcome) and is a
pure function from that behaviour to `Except ClientError result`, mirroring
the Python method line by line.  Client-side state (the subscription
registry, the counter, the transport handles, the connected flag) is an
explicit `ClientState` record and the stateful methods are state
transformers over it.
-/

/-! ## Data model (types.py) -/

/-- types.py `KeyValue`: the dataclass handed to and returned by the client. -/
structure KeyValue where
  key : String
  value : String
  deriving Repr, DecidableEq

/-- types.py `ScanOptions` (fields in source order: start_key, end_key,
prefix, limit, reverse).  The source field named `prefix` is rendered
`prefix_` because that word is a Lean keyword. -/
structure ScanOptions where
  start_key : String := ""
  end_key : String := ""
  prefix_ : String := ""
  limit : Int := 1000
  reverse : Bool := false
  deriving Repr, DecidableEq

/-- types.py `Snapshot`: an opaque server-assigned handle. -/
structure Snapshot where
  snapshot_id : Int
  deriving Repr, DecidableEq

/-! ## Error hierarchy (exceptions.py)

`KVDBError` is the base class; `ConnectionError` and `TimeoutError` are
subclasses.  The client code only ever constructs `KVDBError` and
`ConnectionError`; the constructor raises a plain Python `ValueError` for
an unknown protocol, which is outside the `KVDBError` hierarchy. -/

/-- An exception instance raised by the client, by its dynamic class. -/
inductive ClientError where
  | kvdbError (msg : String)
  | connectionError (msg : String)
  | timeoutError (msg : String)
  deriving Repr, DecidableEq

/-- The class of a raised error (what `type(e)` / `isinstance` dispatches on). -/
inductive ErrorClass where
  | base
  | connection
  | timeout
  deriving Repr, DecidableEq

def errorClass : ClientError → ErrorClass
  | .kvdbError _ => ErrorClass.base
  | .connectionError _ => ErrorClass.connection
  | .timeoutError _ => ErrorClass.timeout

/-- `isinstance(e, TimeoutError)` for the dedicated timeout subclass. -/
def ClientError.isTimeoutClass : ClientError → Bool
  | .timeoutError _ => true
  | _ => false

/-- A Python built-in exception outside the KVDBError hierarchy. -/
inductive PyError where
  | valueError (msg : String)
  deriving Repr, DecidableEq

/-! ## Wire model

gRPC: a unary stub call either returns a response message or raises
`grpc.RpcError`; the error carries a status code and a details string.
A server-streaming call yields a sequence of messages and may end in an
`RpcError`.  HTTP (the `requests` session): a call either returns a
response (status code plus parsed JSON body) or raises a
`requests.RequestException` subclass (timeout, connection error, ...).
The adapters never inspect the gRPC status code or the exception subclass;
both are carried in the model so that properties about timeouts can be
stated. -/

/-- gRPC status code of a failed call (the adapters ignore it). -/
inductive StatusCode where
  | deadlineExceeded
  | unavailable
  | internal
  | other
  deriving Repr, DecidableEq

/-- A raised `grpc.RpcError`: status code and `e.details()`. -/
structure RpcFailure where
  code : StatusCode
  details : String
  deriving Repr, DecidableEq

/-- Which `requests.RequestException` subclass was raised (the adapters
catch the base class, so this is never inspected). -/
inductive ReqExcKind where
  | timeoutExc
  | connectionIssue
  | httpStatusError
  | otherExc
  deriving Repr, DecidableEq

/-- Outcome of one HTTP call: a response (status code, parsed JSON body of
type `β`) or a raised `requests.RequestException` with `str(e) = msg`. -/
inductive HttpOutcome (β : Type) where
  | response (status : Nat) (body : β)
  | requestException (kind : ReqExcKind) (msg : String)
  deriving Repr, DecidableEq

/-- `requests.Response.raise_for_status` raises exactly for 4xx and 5xx. -/
def httpRaisesForStatus (status : Nat) : Bool :=
  decide (400 ≤ status) && decide (status < 600)

/-- `str(requests.HTTPError)` for a status: the detail text piped into the
wrapped message of the adapter (its exact shape is not load-bearing). -/
def httpStatusDetail (status : Nat) : String :=
  toString status ++ " Error"

/-- A key/value pair as carried in wire messages: the protobuf pair or
stream item (fields `key`, `value`) and the HTTP JSON pair object. -/
structure KVPair where
  key : String
  value : String
  deriving Repr, DecidableEq

/-! ### Request messages (kvdb_pb2, fields as used by client.py) -/

structure PutRequest where
  key : String
  value : String
  deriving Repr, DecidableEq

structure GetRequest where
  key : String
  deriving Repr, DecidableEq

structure DeleteRequest where
  key : String
  deriving Repr, DecidableEq

structure BatchPutRequest where
  pairs : List KVPair
  deriving Repr, DecidableEq

structure BatchGetRequest where
  keys : List String
  deriving Repr, DecidableEq

structure ScanRequest where
  start_key : String
  end_key : String
  limit : Int
  deriving Repr, DecidableEq

/-- `kvdb_pb2.PrefixScanRequest(prefix=..., limit=...)`; the source field
named `prefix` is rendered `prefix_` (Lean keyword). -/
structure PrefixScanRequest where
  prefix_ : String
  limit : Int
  deriving Repr, DecidableEq

structure CreateSnapshotRequest where
  deriving Repr, DecidableEq

structure ReleaseSnapshotRequest where
  snapshot_id : Int
  deriving Repr, DecidableEq

structure GetAtSnapshotRequest where
  key : String
  snapshot_id : Int
  deriving Repr, DecidableEq

structure FlushRequest where
  deriving Repr, DecidableEq

structure CompactRequest where
  deriving Repr, DecidableEq

structure GetStatsRequest where
  deriving Repr, DecidableEq

/-! ### Response messages (fields as read by client.py) -/

/-- The acknowledgement shape shared by the Put, Delete, BatchPut,
ReleaseSnapshot, Flush and Compact responses: client.py reads exactly
`success` and `error_message` from each of them. -/
structure AckResponse where
  success : Bool
  error_message : String
  deriving Repr, DecidableEq

/-- The Get (and GetAtSnapshot) response: `found`, `value`, `error_message`. -/
structure GetResponse where
  found : Bool
  value : String
  error_message : String
  deriving Repr, DecidableEq

structure BatchGetResponse where
  pairs : List KVPair
  error_message : String
  deriving Repr, DecidableEq

structure CreateSnapshotResponse where
  snapshot_id : Int
  error_message : String
  deriving Repr, DecidableEq

/-- GetStats response fields; the hit rate is a server-side ratio, carried
opaquely. -/
structure StatsResponse where
  memtable_size : Int
  wal_size : Int
  cache_hit_rate : Rat
  active_snapshots : Int
  deriving Repr, DecidableEq

/-- A JSON scalar as it appears in the stats dictionary. -/
inductive StatVal where
  | int (i : Int)
  | rat (q : Rat)
  deriving Repr, DecidableEq

/-! ### HTTP JSON bodies (as read by client.py via `response.json()`) -/

/-- Body read as `response.json()["value"]`. -/
structure GetBody where
  value : String
  deriving Repr, DecidableEq

/-- Body read as `response.json()["pairs"]`. -/
structure PairsBody where
  pairs : List KVPair
  deriving Repr, DecidableEq

/-- Body read as `response.json()["snapshot_id"]`. -/
structure SnapshotBody where
  snapshot_id : Int
  deriving Repr, DecidableEq

/-! ## Transport adapters (client.py `_grpc_*` / `_http_*`)

Each adapter takes the transport behaviour (`stub`: request to outcome;
`sess`: url and payload to outcome) as a function and mirrors the Python
body: build the request, call, unwrap, wrap faults.  `config.http_base_url`
is the `base` argument of the HTTP adapters. -/

/-- `_grpc_put` (client.py 124-134). -/
def grpc_put (stub : PutRequest → Except RpcFailure AckResponse)
    (key value : String) : Except ClientError Bool :=
  match stub { key := key, value := value } with
  | .error e => .error (.kvdbError ("gRPC error: " ++ e.details))
  | .ok r => if r.success = false then .error (.kvdbError r.error_message) else .ok true

/-- `_http_put` (client.py 136-146): PUT `{base}/kv/{key}` with body
`{"value": value}`; only `raise_for_status` inspects the response. -/
def http_put (base : String) (sess : String → String → HttpOutcome Unit)
    (key value : String) : Except ClientError Bool :=
  match sess (base ++ "/kv/" ++ key) value with
  | .requestException _ m => .error (.kvdbError ("HTTP error: " ++ m))
  | .response status _ =>
    if httpRaisesForStatus status then
      .error (.kvdbError ("HTTP error: " ++ httpStatusDetail status))
    else .ok true

/-- `_grpc_get` (client.py 155-167).  Note the source order: the `found`
test comes before the `error_message` test. -/
def grpc_get (stub : GetRequest → Except RpcFailure GetResponse)
    (key : String) : Except ClientError (Option String) :=
  match stub { key := key } with
  | .error e => .error (.kvdbError ("gRPC error: " ++ e.details))
  | .ok r =>
    if r.found = false then .ok none
    else if r.error_message ≠ "" then .error (.kvdbError r.error_message)
    else .ok (some r.value)

/-- `_http_get` (client.py 169-178): GET `{base}/kv/{key}`; 404 is the
"not found" sentinel, other non-2xx statuses raise. -/
def http_get (base : String) (sess : String → HttpOutcome GetBody)
    (key : String) : Except ClientError (Option String) :=
  match sess (base ++ "/kv/" ++ key) with
  | .requestException _ m => .error (.kvdbError ("HTTP error: " ++ m))
  | .response status body =>
    if status = 404 then .ok none
    else if httpRaisesForStatus status then
      .error (.kvdbError ("HTTP error: " ++ httpStatusDetail status))
    else .ok (some body.value)

/-- `_grpc_delete` (client.py 187-197). -/
def grpc_delete (stub : DeleteRequest → Except RpcFailure AckResponse)
    (key : String) : Except ClientError Bool :=
  match stub { key := key } with
  | .error e => .error (.kvdbError ("gRPC error: " ++ e.details))
  | .ok r => if r.success = false then .error (.kvdbError r.error_message) else .ok true

/-- `_http_delete` (client.py 199-206). -/
def http_delete (base : String) (sess : String → HttpOutcome Unit)
    (key : String) : Except ClientError Bool :=
  match sess (base ++ "/kv/" ++ key) with
  | .requestException _ m => .error (.kvdbError ("HTTP error: " ++ m))
  | .response status _ =>
    if httpRaisesForStatus status then
      .error (.kvdbError ("HTTP error: " ++ httpStatusDetail status))
    else .ok true

/-- `_grpc_batch_put` (client.py 230-245): the request pairs are rebuilt
from the KeyValue list of the caller. -/
def grpc_batch_put (stub : BatchPutRequest → Except RpcFailure AckResponse)
    (pairs : List KeyValue) : Except ClientError Bool :=
  match stub { pairs := pairs.map (fun p => KVPair.mk p.key p.value) } with
  | .error e => .error (.kvdbError ("gRPC error: " ++ e.details))
  | .ok r => if r.success = false then .error (.kvdbError r.error_message) else .ok true

/-- `_http_batch_put` (client.py 247-258): POST `{base}/batch/put` with the
pair list as payload. -/
def http_batch_put (base : String) (sess : String → List KVPair → HttpOutcome Unit)
    (pairs : List KeyValue) : Except ClientError Bool :=
  match sess (base ++ "/batch/put") (pairs.map (fun p => KVPair.mk p.key p.value)) with
  | .requestException _ m => .error (.kvdbError ("HTTP error: " ++ m))
  | .response status _ =>
    if httpRaisesForStatus status then
      .error (.kvdbError ("HTTP error: " ++ httpStatusDetail status))
    else .ok true

/-- `_grpc_batch_get` (client.py 267-281): here the `error_message` test
comes first, then the pairs are materialized in response order. -/
def grpc_batch_get (stub : BatchGetRequest → Except RpcFailure BatchGetResponse)
    (keys : List String) : Except ClientError (List KeyValue) :=
  match stub { keys := keys } with
  | .error e => .error (.kvdbError ("gRPC error: " ++ e.details))
  | .ok r =>
    if r.error_message ≠ "" then .error (.kvdbError r.error_message)
    else .ok (r.pairs.map (fun p => KeyValue.mk p.key p.value))

/-- `_http_batch_get` (client.py 283-297): POST `{base}/batch/get` with the
key list as payload. -/
def http_batch_get (base : String) (sess : String → List String → HttpOutcome PairsBody)
    (keys : List String) : Except ClientError (List KeyValue) :=
  match sess (base ++ "/batch/get") keys with
  | .requestException _ m => .error (.kvdbError ("HTTP error: " ++ m))
  | .response status body =>
    if httpRaisesForStatus status then
      .error (.kvdbError ("HTTP error: " ++ httpStatusDetail status))
    else .ok (body.pairs.map (fun p => KeyValue.mk p.key p.value))

/-- The wire request `_grpc_scan` builds: only `start_key`, `end_key` and
`limit` of the options are sent. -/
def scanRequestOf (options : ScanOptions) : ScanRequest :=
  { start_key := options.start_key, end_key := options.end_key, limit := options.limit }

/-- `_grpc_scan` (client.py 306-320): a server-streaming call.  The stub
maps the request to the streamed items plus an optional terminal fault; the
Python loop appends each item, and a fault raised mid-iteration discards
the partial list and surfaces as a KVDBError. -/
def grpc_scan (stub : ScanRequest → List KVPair × Option RpcFailure)
    (options : ScanOptions) : Except ClientError (List KeyValue) :=
  match stub (scanRequestOf options) with
  | (_, some e) => .error (.kvdbError ("gRPC error: " ++ e.details))
  | (stream, none) => .ok (stream.map (fun p => KeyValue.mk p.key p.value))

/-- The query parameters `_http_scan` sends: again only `start_key`,
`end_key` and `limit`. -/
structure ScanParams where
  start_key : String
  end_key : String
  limit : Int
  deriving Repr, DecidableEq

def scanParamsOf (options : ScanOptions) : ScanParams :=
  { start_key := options.start_key, end_key := options.end_key, limit := options.limit }

/-- `_http_scan` (client.py 322-338): GET `{base}/scan` with the params. -/
def http_scan (base : String) (sess : String → ScanParams → HttpOutcome PairsBody)
    (options : ScanOptions) : Except ClientError (List KeyValue) :=
  match sess (base ++ "/scan") (scanParamsOf options) with
  | .requestException _ m => .error (.kvdbError ("HTTP error: " ++ m))
  | .response status body =>
    if httpRaisesForStatus status then
      .error (.kvdbError ("HTTP error: " ++ httpStatusDetail status))
    else .ok (body.pairs.map (fun p => KeyValue.mk p.key p.value))

/-- `_grpc_prefix_scan` (client.py 347-357): streaming, like `_grpc_scan`. -/
def grpc_prefix_scan (stub : PrefixScanRequest → List KVPair × Option RpcFailure)
    (pfx : String) (limit : Int) : Except ClientError (List KeyValue) :=
  match stub { prefix_ := pfx, limit := limit } with
  | (_, some e) => .error (.kvdbError ("gRPC error: " ++ e.details))
  | (stream, none) => .ok (stream.map (fun p => KeyValue.mk p.key p.value))

/-- `_http_prefix_scan` (client.py 359-371): GET `{base}/prefix_scan` with
params `{"prefix": pfx, "limit": limit}` (passed positionally here). -/
def http_prefix_scan (base : String) (sess : String → String → Int → HttpOutcome PairsBody)
    (pfx : String) (limit : Int) : Except ClientError (List KeyValue) :=
  match sess (base ++ "/prefix_scan") pfx limit with
  | .requestException _ m => .error (.kvdbError ("HTTP error: " ++ m))
  | .response status body =>
    if httpRaisesForStatus status then
      .error (.kvdbError ("HTTP error: " ++ httpStatusDetail status))
    else .ok (body.pairs.map (fun p => KeyValue.mk p.key p.value))

/-- `_grpc_create_snapshot` (client.py 380-390). -/
def grpc_create_snapshot
    (stub : CreateSnapshotRequest → Except RpcFailure CreateSnapshotResponse) :
    Except ClientError Snapshot :=
  match stub {} with
  | .error e => .error (.kvdbError ("gRPC error: " ++ e.details))
  | .ok r =>
    if r.error_message ≠ "" then .error (.kvdbError r.error_message)
    else .ok { snapshot_id := r.snapshot_id }

/-- `_http_create_snapshot` (client.py 392-399): POST `{base}/snapshot`. -/
def http_create_snapshot (base : String) (sess : String → HttpOutcome SnapshotBody) :
    Except ClientError Snapshot :=
  match sess (base ++ "/snapshot") with
  | .requestException _ m => .error (.kvdbError ("HTTP error: " ++ m))
  | .response status body =>
    if httpRaisesForStatus status then
      .error (.kvdbError ("HTTP error: " ++ httpStatusDetail status))
    else .ok { snapshot_id := body.snapshot_id }

/-- `_grpc_release_snapshot` (client.py 408-418). -/
def grpc_release_snapshot
    (stub : ReleaseSnapshotRequest → Except RpcFailure AckResponse)
    (snapshot : Snapshot) : Except ClientError Bool :=
  match stub { snapshot_id := snapshot.snapshot_id } with
  | .error e => .error (.kvdbError ("gRPC error: " ++ e.details))
  | .ok r => if r.success = false then .error (.kvdbError r.error_message) else .ok true

/-- `_http_release_snapshot` (client.py 420-427): DELETE
`{base}/snapshot/{id}`. -/
def http_release_snapshot (base : String) (sess : String → HttpOutcome Unit)
    (snapshot : Snapshot) : Except ClientError Bool :=
  match sess (base ++ "/snapshot/" ++ toString snapshot.snapshot_id) with
  | .requestException _ m => .error (.kvdbError ("HTTP error: " ++ m))
  | .response status _ =>
    if httpRaisesForStatus status then
      .error (.kvdbError ("HTTP error: " ++ httpStatusDetail status))
    else .ok true

/-- `_grpc_get_at_snapshot` (client.py 436-448): same unwrap order as
`_grpc_get` (found first, error_message second). -/
def grpc_get_at_snapshot
    (stub : GetAtSnapshotRequest → Except RpcFailure GetResponse)
    (key : String) (snapshot : Snapshot) : Except ClientError (Option String) :=
  match stub { key := key, snapshot_id := snapshot.snapshot_id } with
  | .error e => .error (.kvdbError ("gRPC error: " ++ e.details))
  | .ok r =>
    if r.found = false then .ok none
    else if r.error_message ≠ "" then .error (.kvdbError r.error_message)
    else .ok (some r.value)

/-- `_http_get_at_snapshot` (client.py 450-461): GET
`{base}/snapshot/{id}/kv/{key}`; 404 is the sentinel. -/
def http_get_at_snapshot (base : String) (sess : String → HttpOutcome GetBody)
    (key : String) (snapshot : Snapshot) : Except ClientError (Option String) :=
  match sess (base ++ "/snapshot/" ++ toString snapshot.snapshot_id ++ "/kv/" ++ key) with
  | .requestException _ m => .error (.kvdbError ("HTTP error: " ++ m))
  | .response status body =>
    if status = 404 then .ok none
    else if httpRaisesForStatus status then
      .error (.kvdbError ("HTTP error: " ++ httpStatusDetail status))
    else .ok (some body.value)

/-- `_grpc_flush` (client.py 470-480). -/
def grpc_flush (stub : FlushRequest → Except RpcFailure AckResponse) :
    Except ClientError Bool :=
  match stub {} with
  | .error e => .error (.kvdbError ("gRPC error: " ++ e.details))
  | .ok r => if r.success = false then .error (.kvdbError r.error_message) else .ok true

/-- `_http_flush` (client.py 482-489): POST `{base}/admin/flush`. -/
def http_flush (base : String) (sess : String → HttpOutcome Unit) :
    Except ClientError Bool :=
  match sess (base ++ "/admin/flush") with
  | .requestException _ m => .error (.kvdbError ("HTTP error: " ++ m))
  | .response status _ =>
    if httpRaisesForStatus status then
      .error (.kvdbError ("HTTP error: " ++ httpStatusDetail status))
    else .ok true

/-- `_grpc_compact` (client.py 498-508). -/
def grpc_compact (stub : CompactRequest → Except RpcFailure AckResponse) :
    Except ClientError Bool :=
  match stub {} with
  | .error e => .error (.kvdbError ("gRPC error: " ++ e.details))
  | .ok r => if r.success = false then .error (.kvdbError r.error_message) else .ok true

/-- `_http_compact` (client.py 510-517): POST `{base}/admin/compact`. -/
def http_compact (base : String) (sess : String → HttpOutcome Unit) :
    Except ClientError Bool :=
  match sess (base ++ "/admin/compact") with
  | .requestException _ m => .error (.kvdbError ("HTTP error: " ++ m))
  | .response status _ =>
    if httpRaisesForStatus status then
      .error (.kvdbError ("HTTP error: " ++ httpStatusDetail status))
    else .ok true

/-- `_grpc_get_stats` (client.py 526-539): builds the stats dictionary from
the four response fields, in source order. -/
def grpc_get_stats (stub : GetStatsRequest → Except RpcFailure StatsResponse) :
    Except ClientError (List (String × StatVal)) :=
  match stub {} with
  | .error e => .error (.kvdbError ("gRPC error: " ++ e.details))
  | .ok r =>
    .ok [("memtable_size", StatVal.int r.memtable_size),
         ("wal_size", StatVal.int r.wal_size),
         ("cache_hit_rate", StatVal.rat r.cache_hit_rate),
         ("active_snapshots", StatVal.int r.active_snapshots)]

/-- `_http_get_stats` (client.py 541-548): GET `{base}/admin/stats` and
return `response.json()` as-is. -/
def http_get_stats (base : String) (sess : String → HttpOutcome (List (String × StatVal))) :
    Except ClientError (List (String × StatVal)) :=
  match sess (base ++ "/admin/stats") with
  | .requestException _ m => .error (.kvdbError ("HTTP error: " ++ m))
  | .response status body =>
    if httpRaisesForStatus status then
      .error (.kvdbError ("HTTP error: " ++ httpStatusDetail status))
    else .ok body

/-! ## Client state and constructor (KVDBClient)

The mutable per-instance state the claims are about: the connected flag,
the subscription registry (dict keys; the values are thread handles and
carry no further information), the subscription id counter, and the
transport handles.  `channel` / `session` are `none` when the attribute
was never created and `some b` when present with `b` = still open. -/

structure ClientState where
  connected : Bool
  subscriptions : List Nat
  counter : Nat
  channel : Option Bool
  session : Option Bool
  deriving Repr, DecidableEq

/-- `KVDBClient.__init__` (client.py 49-63): dispatch on `config.protocol`;
`grpc` creates a channel, `http` a session, anything else raises a plain
`ValueError` before any state beyond the defaults exists. -/
def client_init (protocol : String) : Except PyError ClientState :=
  if protocol = "grpc" then
    .ok { connected := false, subscriptions := [], counter := 0,
          channel := some true, session := none }
  else if protocol = "http" then
    .ok { connected := false, subscriptions := [], counter := 0,
          channel := none, session := some true }
  else
    .error (.valueError ("Unsupported protocol: " ++ protocol))

/-- Whether construction succeeds (no ValueError). -/
def initSucceeds (protocol : String) : Bool :=
  match client_init protocol with
  | .ok _ => true
  | .error _ => false

/-- `is_connected` (client.py 113-115). -/
def is_connected (st : ClientState) : Bool :=
  st.connected

/-! ## Facade dispatch (the public methods, client.py)

Each public method tests `config.protocol` and returns the matching
result of the matching adapter; a protocol that is neither `grpc` nor `http` falls off
the if/elif chain, which in Python is an implicit `None` — modelled as
`Option.none` around the result. -/

namespace KVDBClient

/-- `put` (client.py 117-122). -/
def put (protocol : String) (stub : PutRequest → Except RpcFailure AckResponse)
    (base : String) (sess : String → String → HttpOutcome Unit)
    (key value : String) : Option (Except ClientError Bool) :=
  if protocol = "grpc" then some (grpc_put stub key value)
  else if protocol = "http" then some (http_put base sess key value)
  else none

/-- `get` (client.py 148-153). -/
def get (protocol : String) (stub : GetRequest → Except RpcFailure GetResponse)
    (base : String) (sess : String → HttpOutcome GetBody)
    (key : String) : Option (Except ClientError (Option String)) :=
  if protocol = "grpc" then some (grpc_get stub key)
  else if protocol = "http" then some (http_get base sess key)
  else none

/-- `delete` (client.py 180-185). -/
def delete (protocol : String) (stub : DeleteRequest → Except RpcFailure AckResponse)
    (base : String) (sess : String → HttpOutcome Unit)
    (key : String) : Option (Except ClientError Bool) :=
  if protocol = "grpc" then some (grpc_delete stub key)
  else if protocol = "http" then some (http_delete base sess key)
  else none

/-- `batch_put` (client.py 223-228). -/
def batch_put (protocol : String) (stub : BatchPutRequest → Except RpcFailure AckResponse)
    (base : String) (sess : String → List KVPair → HttpOutcome Unit)
    (pairs : List KeyValue) : Option (Except ClientError Bool) :=
  if protocol = "grpc" then some (grpc_batch_put stub pairs)
  else if protocol = "http" then some (http_batch_put base sess pairs)
  else none

/-- `batch_get` (client.py 260-265). -/
def batch_get (protocol : String) (stub : BatchGetRequest → Except RpcFailure BatchGetResponse)
    (base : String) (sess : String → List String → HttpOutcome PairsBody)
    (keys : List String) : Option (Except ClientError (List KeyValue)) :=
  if protocol = "grpc" then some (grpc_batch_get stub keys)
  else if protocol = "http" then some (http_batch_get base sess keys)
  else none

/-- `scan` (client.py 299-304). -/
def scan (protocol : String) (stub : ScanRequest → List KVPair × Option RpcFailure)
    (base : String) (sess : String → ScanParams → HttpOutcome PairsBody)
    (options : ScanOptions) : Option (Except ClientError (List KeyValue)) :=
  if protocol = "grpc" then some (grpc_scan stub options)
  else if protocol = "http" then some (http_scan base sess options)
  else none

/-- `prefix_scan` (client.py 340-345). -/
def prefix_scan (protocol : String) (stub : PrefixScanRequest → List KVPair × Option RpcFailure)
    (base : String) (sess : String → String → Int → HttpOutcome PairsBody)
    (pfx : String) (limit : Int) : Option (Except ClientError (List KeyValue)) :=
  if protocol = "grpc" then some (grpc_prefix_scan stub pfx limit)
  else if protocol = "http" then some (http_prefix_scan base sess pfx limit)
  else none

/-- `create_snapshot` (client.py 373-378). -/
def create_snapshot (protocol : String)
    (stub : CreateSnapshotRequest → Except RpcFailure CreateSnapshotResponse)
    (base : String) (sess : String → HttpOutcome SnapshotBody) :
    Option (Except ClientError Snapshot) :=
  if protocol = "grpc" then some (grpc_create_snapshot stub)
  else if protocol = "http" then some (http_create_snapshot base sess)
  else none

/-- `release_snapshot` (client.py 401-406). -/
def release_snapshot (protocol : String)
    (stub : ReleaseSnapshotRequest → Except RpcFailure AckResponse)
    (base : String) (sess : String → HttpOutcome Unit)
    (snapshot : Snapshot) : Option (Except ClientError Bool) :=
  if protocol = "grpc" then some (grpc_release_snapshot stub snapshot)
  else if protocol = "http" then some (http_release_snapshot base sess snapshot)
  else none

/-- `get_at_snapshot` (client.py 429-434). -/
def get_at_snapshot (protocol : String)
    (stub : GetAtSnapshotRequest → Except RpcFailure GetResponse)
    (base : String) (sess : String → HttpOutcome GetBody)
    (key : String) (snapshot : Snapshot) : Option (Except ClientError (Option String)) :=
  if protocol = "grpc" then some (grpc_get_at_snapshot stub key snapshot)
  else if protocol = "http" then some (http_get_at_snapshot base sess key snapshot)
  else none

/-- `flush` (client.py 463-468). -/
def flush (protocol : String) (stub : FlushRequest → Except RpcFailure AckResponse)
    (base : String) (sess : String → HttpOutcome Unit) :
    Option (Except ClientError Bool) :=
  if protocol = "grpc" then some (grpc_flush stub)
  else if protocol = "http" then some (http_flush base sess)
  else none

/-- `compact` (client.py 491-496). -/
def compact (protocol : String) (stub : CompactRequest → Except RpcFailure AckResponse)
    (base : String) (sess : String → HttpOutcome Unit) :
    Option (Except ClientError Bool) :=
  if protocol = "grpc" then some (grpc_compact stub)
  else if protocol = "http" then some (http_compact base sess)
  else none

/-- `get_stats` (client.py 519-524). -/
def get_stats (protocol : String) (stub : GetStatsRequest → Except RpcFailure StatsResponse)
    (base : String) (sess : String → HttpOutcome (List (String × StatVal))) :
    Option (Except ClientError (List (String × StatVal))) :=
  if protocol = "grpc" then some (grpc_get_stats stub)
  else if protocol = "http" then some (http_get_stats base sess)
  else none

end KVDBClient

/-! ## Subscription manager (client.py 550-586) -/

/-- One pushed change event, as handed to the user callback:
`callback(response.key, response.value, response.operation)`. -/
structure Event where
  key : String
  value : String
  operation : String
  deriving Repr, DecidableEq

/-- `cancel_subscription` (client.py 583-586): delete the id from the
registry dict if present.  Registry keys are unique (dict keys assigned
from the monotone counter), so deleting the key is removing every
occurrence from the key list. -/
def cancel_subscription (st : ClientState) (subscription_id : Nat) : ClientState :=
  if st.subscriptions.contains subscription_id then
    { st with subscriptions := st.subscriptions.filter (fun k => k != subscription_id) }
  else st

/-- `subscribe` (client.py 550-581), up to starting the receive thread:
a non-gRPC protocol raises KVDBError at once, before the counter is read
or the registry touched; otherwise the current counter becomes the new id,
the counter is incremented, and the id is registered. -/
def subscribe (protocol : String) (st : ClientState) :
    ClientState × Except ClientError Nat :=
  if protocol ≠ "grpc" then
    (st, .error (.kvdbError ("Subscription is only supported with gRPC protocol")))
  else
    (⟨st.connected, st.subscriptions ++ [st.counter], st.counter + 1,
      st.channel, st.session⟩, .ok st.counter)

/-- The body of `subscription_thread` (client.py 559-575) as it consumes
the event stream: before invoking the callback for the event at loop
index `i` it re-checks registry membership (`member i`, sampling the
registry at that moment) and breaks out when the id is gone.  The result
is the list of events actually forwarded to the callback. -/
def receive_loop (member : Nat → Bool) : Nat → List Event → List Event
  | _, [] => []
  | i, e :: rest => if member i then e :: receive_loop member (i + 1) rest else []

/-- `disconnect` (client.py 100-111): clear the connected flag, cancel
every subscription (iterating over a copy of the key list), then close the
transport handle the protocol owns, if it exists. -/
def disconnect (protocol : String) (st : ClientState) : ClientState :=
  let st1 : ClientState := { st with connected := false }
  let st2 := st1.subscriptions.foldl cancel_subscription st1
  if protocol = "grpc" ∧ st2.channel.isSome then { st2 with channel := some false }
  else if protocol = "http" ∧ st2.session.isSome then { st2 with session := some false }
  else st2

/-- `__exit__` (client.py 593-595): context-manager exit just disconnects. -/
def context_exit (protocol : String) (st : ClientState) : ClientState :=
  disconnect protocol st

/-! ## Logical outcomes and their canonical wire encodings (spec side)

The adapter-equivalence contract of the spec ("Both adapters must produce
behaviorally identical results for identical logical operations") is about
server responses that encode the same logical outcome on the two wires.
The types below name the logical outcomes of each operation shape and give
the canonical encoding on each transport, following the wire
conventions of the spec: gRPC signals success/failure in the response message where the
message has a field for it and as a non-OK status otherwise, preserving a
detail message; HTTP signals success as 2xx, "not found" as 404 on reads,
and failure as a 5xx status or a raised request exception. -/

/-- Outcome of an acknowledgement-style operation (put, delete, batchPut,
releaseSnapshot, flush, compact). -/
inductive AckOutcome where
  | success
  | serverFailure (msg : String)
  | transportFault (msg : String)
  deriving Repr, DecidableEq

def AckOutcome.grpcAck : AckOutcome → Except RpcFailure AckResponse
  | .success => .ok { success := true, error_message := "" }
  | .serverFailure m => .ok { success := false, error_message := m }
  | .transportFault m => .error { code := .unavailable, details := m }

def AckOutcome.httpAck : AckOutcome → HttpOutcome Unit
  | .success => .response 200 ()
  | .serverFailure _ => .response 500 ()
  | .transportFault m => .requestException .connectionIssue m

/-- Outcome of a point read (get, getAtSnapshot). -/
inductive GetOutcome where
  | value (v : String)
  | absent
  | failure (msg : String)
  deriving Repr, DecidableEq

def GetOutcome.grpcGet : GetOutcome → Except RpcFailure GetResponse
  | .value v => .ok { found := true, value := v, error_message := "" }
  | .absent => .ok { found := false, value := "", error_message := "" }
  | .failure m => .error { code := .internal, details := m }

def GetOutcome.httpGet : GetOutcome → HttpOutcome GetBody
  | .value v => .response 200 { value := v }
  | .absent => .response 404 { value := "" }
  | .failure _ => .response 500 { value := "" }

/-- Outcome of a pair-list operation (batchGet, scan, prefixScan). -/
inductive PairsOutcome where
  | entries (l : List KVPair)
  | failure (msg : String)
  deriving Repr, DecidableEq

def PairsOutcome.grpcBatchGet : PairsOutcome → Except RpcFailure BatchGetResponse
  | .entries l => .ok { pairs := l, error_message := "" }
  | .failure m => .error { code := .internal, details := m }

/-- scan/prefixScan on gRPC stream the entries; failure ends the stream in
an RpcError. -/
def PairsOutcome.grpcStream : PairsOutcome → List KVPair × Option RpcFailure
  | .entries l => (l, none)
  | .failure m => ([], some { code := .internal, details := m })

def PairsOutcome.httpPairs : PairsOutcome → HttpOutcome PairsBody
  | .entries l => .response 200 { pairs := l }
  | .failure _ => .response 500 { pairs := [] }

/-- Outcome of createSnapshot. -/
inductive SnapOutcome where
  | created (id : Int)
  | failure (msg : String)
  deriving Repr, DecidableEq

def SnapOutcome.grpcSnap : SnapOutcome → Except RpcFailure CreateSnapshotResponse
  | .created i => .ok { snapshot_id := i, error_message := "" }
  | .failure m => .error { code := .internal, details := m }

def SnapOutcome.httpSnap : SnapOutcome → HttpOutcome SnapshotBody
  | .created i => .response 200 { snapshot_id := i }
  | .failure _ => .response 500 { snapshot_id := 0 }

/-- The stats summary as the HTTP server serialises it: the same four keys
the gRPC adapter assembles, in the same order. -/
def statsJson (s : StatsResponse) : List (String × StatVal) :=
  [("memtable_size", StatVal.int s.memtable_size),
   ("wal_size", StatVal.int s.wal_size),
   ("cache_hit_rate", StatVal.rat s.cache_hit_rate),
   ("active_snapshots", StatVal.int s.active_snapshots)]

/-- Outcome of getStats. -/
inductive StatsOutcome where
  | stats (s : StatsResponse)
  | failure (msg : String)
  deriving Repr, DecidableEq

def StatsOutcome.grpcStats : StatsOutcome → Except RpcFailure StatsResponse
  | .stats s => .ok s
  | .failure m => .error { code := .internal, details := m }

def StatsOutcome.httpStats : StatsOutcome → HttpOutcome (List (String × StatVal))
  | .stats s => .response 200 (statsJson s)
  | .failure _ => .response 500 []

/-- Behavioural identity of two adapter results: both return the same
value, or both raise an error of the same class (messages may differ by
transport-specific wrapping). -/
def sameBehavior {α : Type} : Except ClientError α → Except ClientError α → Prop
  | .ok x, .ok y => x = y
  | .error e1, .error e2 => errorClass e1 = errorClass e2
  | _, _ => False

/-! ## Helper lemmas -/


/-! ## Helper lemmas -/

/-- Both branches of cancel_subscription are one filtering of the key list. -/
theorem cancel_subscription_subs (st : ClientState) (i : Nat) :
    cancel_subscription st i =
      { st with subscriptions := st.subscriptions.filter (fun k => k != i) } := by
  unfold cancel_subscription
  by_cases h : st.subscriptions.contains i = true
  · rw [if_pos h]
  · rw [if_neg h]
    cases st with
    | mk c subs cnt ch se =>
      simp only [ClientState.mk.injEq, true_and, and_true]
      symm
      apply List.filter_eq_self.mpr
      intro a ha
      simp only [bne_iff_ne, ne_eq]
      intro heq
      subst heq
      exact h (List.elem_eq_true_of_mem ha)

theorem foldl_cancel_fields (l : List Nat) (st : ClientState) :
    (l.foldl cancel_subscription st).connected = st.connected
    ∧ (l.foldl cancel_subscription st).channel = st.channel
    ∧ (l.foldl cancel_subscription st).session = st.session := by
  induction l generalizing st with
  | nil => exact ⟨rfl, rfl, rfl⟩
  | cons a t ih =>
    rw [List.foldl_cons, cancel_subscription_subs]
    have h := ih { st with subscriptions := st.subscriptions.filter (fun k => k != a) }
    simpa using h

theorem foldl_cancel_subs (l : List Nat) (st : ClientState) :
    (l.foldl cancel_subscription st).subscriptions
      = st.subscriptions.filter (fun k => !(l.contains k)) := by
  induction l generalizing st with
  | nil => simp
  | cons a t ih =>
    rw [List.foldl_cons, cancel_subscription_subs,
        ih { st with subscriptions := st.subscriptions.filter (fun k => k != a) }]
    simp only [List.filter_filter]
    congr 1
    funext k
    simp only [List.contains_cons, Bool.not_or, Bool.and_comm]
    rfl

theorem filter_not_contains_self (l : List Nat) :
    l.filter (fun k => !(l.contains k)) = [] := by
  apply List.filter_eq_nil_iff.mpr
  intro a ha
  simpa using ha

theorem receive_loop_length_le (member : Nat → Bool) (c : Nat)
    (hc : ∀ j, c ≤ j → member j = false) :
    ∀ (events : List Event) (i : Nat),
      (receive_loop member i events).length + i ≤ c ∨ receive_loop member i events = [] := by
  intro events
  induction events with
  | nil => intro i; exact Or.inr rfl
  | cons e rest ih =>
    intro i
    by_cases hm : member i = true
    · have hlt : i < c := by
        by_contra hge
        have hf := hc i (Nat.le_of_not_lt hge)
        rw [hm] at hf
        exact absurd hf (by simp)
      rcases ih (i + 1) with h | h
      · left
        simp only [receive_loop, hm, if_true, List.length_cons]
        omega
      · left
        simp only [receive_loop, hm, if_true, h, List.length_cons, List.length_nil]
        omega
    · right
      have hm2 : member i = false := by revert hm; cases member i <;> simp
      simp [receive_loop, hm2]

theorem receive_loop_take (member : Nat → Bool) :
    ∀ (events : List Event) (i : Nat),
      receive_loop member i events = events.take ((receive_loop member i events).length) := by
  intro events
  induction events with
  | nil => intro i; rfl
  | cons e rest ih =>
    intro i
    by_cases hm : member i = true
    · simp only [receive_loop, hm, if_true, List.length_cons, List.take_succ_cons,
        List.cons.injEq, true_and]
      exact ih (i + 1)
    · have hm2 : member i = false := by revert hm; cases member i <;> simp
      simp [receive_loop, hm2]

theorem contains_filter_ne (l : List Nat) (i : Nat) :
    (l.filter (fun k => k != i)).contains i = false := by
  cases hcon : (l.filter (fun k => k != i)).contains i
  · rfl
  · exfalso
    have hm := List.mem_of_elem_eq_true hcon
    rw [List.mem_filter] at hm
    simp at hm

theorem disconnect_connected (p : String) (st : ClientState) :
    (disconnect p st).connected = false := by
  simp only [disconnect]
  split_ifs
  · simp [(foldl_cancel_fields _ _).1]
  · simp [(foldl_cancel_fields _ _).1]
  · exact (foldl_cancel_fields _ _).1.trans rfl

theorem disconnect_subs (p : String) (st : ClientState) :
    (disconnect p st).subscriptions = [] := by
  simp only [disconnect]
  split_ifs
  · simp [foldl_cancel_subs, filter_not_contains_self]
  · simp [foldl_cancel_subs, filter_not_contains_self]
  · rw [foldl_cancel_subs]
    exact filter_not_contains_self _

theorem disconnect_channel (st : ClientState) :
    (disconnect ("grpc") st).channel = st.channel.map (fun _ => false) := by
  have hch := (foldl_cancel_fields
    ({ st with connected := false } : ClientState).subscriptions
    { st with connected := false }).2.1
  simp only [disconnect]
  split_ifs with h1 h2
  · rcases h1 with ⟨-, hsome⟩
    rw [hch] at hsome
    cases hc2 : st.channel with
    | none => rw [hc2] at hsome; simp at hsome
    | some b => simp [hc2]
  · rcases h2 with ⟨habs, -⟩
    exact absurd habs (by decide)
  · rw [hch]
    cases hc2 : st.channel with
    | none => rfl
    | some b =>
      exfalso
      apply h1
      refine ⟨trivial, ?_⟩
      rw [hch, hc2]
      rfl

theorem disconnect_session (st : ClientState) :
    (disconnect ("http") st).session = st.session.map (fun _ => false) := by
  have hse := (foldl_cancel_fields
    ({ st with connected := false } : ClientState).subscriptions
    { st with connected := false }).2.2
  simp only [disconnect]
  split_ifs with h1 h2
  · rcases h1 with ⟨habs, -⟩
    exact absurd habs (by decide)
  · rcases h2 with ⟨-, hsome⟩
    rw [hse] at hsome
    cases hc2 : st.session with
    | none => rw [hc2] at hsome; simp at hsome
    | some b => simp [hc2]
  · rw [hse]
    cases hc2 : st.session with
    | none => rfl
    | some b =>
      exfalso
      apply h2
      refine ⟨trivial, ?_⟩
      rw [hse, hc2]
      rfl

/-! ## Claim theorems, witnesses and counterexamples -/

/-- Claim C1: for every logical operation (put, get, delete, batchPut,
batchGet, scan, prefixScan, createSnapshot, releaseSnapshot, getAtSnapshot,
flush, compact, getStats) and every input, the gRPC adapter and the HTTP
adapter produce behaviorally identical results on server responses encoding
the same logical outcome: both return the same value, or both raise an error
of the same class.  In particular a successful put(k, v) followed by a get(k)
answered with value v returns v under both transports. -/
theorem C1_adapter_equivalence
    (k v base pfx : String) (keys : List String) (kvs : List KeyValue)
    (options : ScanOptions) (limit : Int) (snapshot : Snapshot)
    (ao : AckOutcome) (go gao : GetOutcome) (po : PairsOutcome)
    (sno : SnapOutcome) (sto : StatsOutcome) :
    sameBehavior (grpc_put (fun _ => ao.grpcAck) k v)
        (http_put base (fun _ _ => ao.httpAck) k v)
    ∧ sameBehavior (grpc_get (fun _ => go.grpcGet) k)
        (http_get base (fun _ => go.httpGet) k)
    ∧ sameBehavior (grpc_delete (fun _ => ao.grpcAck) k)
        (http_delete base (fun _ => ao.httpAck) k)
    ∧ sameBehavior (grpc_batch_put (fun _ => ao.grpcAck) kvs)
        (http_batch_put base (fun _ _ => ao.httpAck) kvs)
    ∧ sameBehavior (grpc_batch_get (fun _ => po.grpcBatchGet) keys)
        (http_batch_get base (fun _ _ => po.httpPairs) keys)
    ∧ sameBehavior (grpc_scan (fun _ => po.grpcStream) options)
        (http_scan base (fun _ _ => po.httpPairs) options)
    ∧ sameBehavior (grpc_prefix_scan (fun _ => po.grpcStream) pfx limit)
        (http_prefix_scan base (fun _ _ _ => po.httpPairs) pfx limit)
    ∧ sameBehavior (grpc_create_snapshot (fun _ => sno.grpcSnap))
        (http_create_snapshot base (fun _ => sno.httpSnap))
    ∧ sameBehavior (grpc_release_snapshot (fun _ => ao.grpcAck) snapshot)
        (http_release_snapshot base (fun _ => ao.httpAck) snapshot)
    ∧ sameBehavior (grpc_get_at_snapshot (fun _ => gao.grpcGet) k snapshot)
        (http_get_at_snapshot base (fun _ => gao.httpGet) k snapshot)
    ∧ sameBehavior (grpc_flush (fun _ => ao.grpcAck))
        (http_flush base (fun _ => ao.httpAck))
    ∧ sameBehavior (grpc_compact (fun _ => ao.grpcAck))
        (http_compact base (fun _ => ao.httpAck))
    ∧ sameBehavior (grpc_get_stats (fun _ => sto.grpcStats))
        (http_get_stats base (fun _ => sto.httpStats))
    ∧ (grpc_put (fun _ => AckOutcome.success.grpcAck) k v = .ok true
       ∧ grpc_get (fun _ => (GetOutcome.value v).grpcGet) k = .ok (some v)
       ∧ http_put base (fun _ _ => AckOutcome.success.httpAck) k v = .ok true
       ∧ http_get base (fun _ => (GetOutcome.value v).httpGet) k = .ok (some v)) := by
  refine ⟨?_, ?_, ?_, ?_, ?_, ?_, ?_, ?_, ?_, ?_, ?_, ?_, ?_, rfl, rfl, rfl, rfl⟩
  · cases ao <;> rfl
  · cases go <;> rfl
  · cases ao <;> rfl
  · cases ao <;> rfl
  · cases po <;> rfl
  · cases po <;> rfl
  · cases po <;> rfl
  · cases sno <;> rfl
  · cases ao <;> rfl
  · cases gao <;> rfl
  · cases ao <;> rfl
  · cases ao <;> rfl
  · cases sto <;> rfl

/-- Claim C2 fails as stated: this gRPC get response is marked not-found and
carries the non-empty server error message, yet the operation returns the
sentinel `none` instead of raising, because `_grpc_get` tests `found` before
`error_message`. -/
theorem C2_counterexample :
    (GetResponse.mk false ("") ("disk failure")).error_message.isEmpty = false
    ∧ grpc_get (fun _ => .ok (GetResponse.mk false ("") ("disk failure"))) ("k") = .ok none :=
  ⟨rfl, rfl⟩

/-- Claim C2, amended: get and getAtSnapshot return the value or the explicit
not-found sentinel, never conflating absence with an error; but a server
error message is surfaced as an error only when the response is marked found
(on a not-found response the message is ignored and the sentinel returned). -/
theorem C2_get_amended (k v msg base : String) (sid : Int) (hmsg : msg ≠ "") :
    grpc_get (fun _ => .ok { found := false, value := v, error_message := msg }) k = .ok none
    ∧ grpc_get (fun _ => .ok { found := true, value := v, error_message := msg }) k
        = .error (.kvdbError msg)
    ∧ grpc_get (fun _ => .ok { found := true, value := v, error_message := "" }) k
        = .ok (some v)
    ∧ grpc_get_at_snapshot (fun _ => .ok { found := false, value := v, error_message := msg }) k
        { snapshot_id := sid } = .ok none
    ∧ grpc_get_at_snapshot (fun _ => .ok { found := true, value := v, error_message := msg }) k
        { snapshot_id := sid } = .error (.kvdbError msg)
    ∧ grpc_get_at_snapshot (fun _ => .ok { found := true, value := v, error_message := "" }) k
        { snapshot_id := sid } = .ok (some v)
    ∧ http_get base (fun _ => .response 404 { value := v }) k = .ok none
    ∧ http_get_at_snapshot base (fun _ => .response 404 { value := v }) k { snapshot_id := sid }
        = .ok none := by
  refine ⟨rfl, ?_, rfl, rfl, ?_, rfl, rfl, rfl⟩
  · simp [grpc_get, hmsg]
  · simp [grpc_get_at_snapshot, hmsg]

/-- Witness for the amended claim C2 at a concrete found response carrying an
error message. -/
theorem C2_get_amended_witness :
    grpc_get (fun _ => .ok { found := true, value := ("v"), error_message := ("boom") }) ("k")
      = .error (.kvdbError ("boom")) :=
  (C2_get_amended ("k") ("v") ("boom") ("b") 1 (by decide)).2.1

/-- Claim C3 fails as stated: a deadline-exceeded gRPC fault (the exceeded
timeout) on get is re-raised as the generic KVDBError, whose class is not the
TimeoutError subclass. -/
theorem C3_counterexample :
    grpc_get (fun _ => .error { code := .deadlineExceeded, details := ("Deadline Exceeded") }) ("k")
      = .error (.kvdbError ("gRPC error: " ++ "Deadline Exceeded"))
    ∧ ClientError.isTimeoutClass (.kvdbError ("gRPC error: " ++ "Deadline Exceeded")) = false
    ∧ (RpcFailure.mk .deadlineExceeded ("Deadline Exceeded")).code = StatusCode.deadlineExceeded :=
  ⟨rfl, rfl, rfl⟩

/-- Claim C3, amended: exceeding the request timeout on any blocking
operation (a deadline-exceeded gRPC fault; a requests timeout exception on
HTTP) raises the generic base-class KVDBError carrying the transport detail
message, never the dedicated TimeoutError class of the hierarchy. -/
theorem C3_timeout_amended (f : RpcFailure) (k v base pfx m : String)
    (kvs : List KeyValue) (keys : List String) (options : ScanOptions)
    (limit : Int) (snapshot : Snapshot)
    (hf : f.code = StatusCode.deadlineExceeded) :
    grpc_put (fun _ => .error f) k v = .error (.kvdbError ("gRPC error: " ++ f.details))
    ∧ grpc_get (fun _ => .error f) k = .error (.kvdbError ("gRPC error: " ++ f.details))
    ∧ grpc_delete (fun _ => .error f) k = .error (.kvdbError ("gRPC error: " ++ f.details))
    ∧ grpc_batch_put (fun _ => .error f) kvs = .error (.kvdbError ("gRPC error: " ++ f.details))
    ∧ grpc_batch_get (fun _ => .error f) keys = .error (.kvdbError ("gRPC error: " ++ f.details))
    ∧ grpc_scan (fun _ => ([], some f)) options = .error (.kvdbError ("gRPC error: " ++ f.details))
    ∧ grpc_prefix_scan (fun _ => ([], some f)) pfx limit
        = .error (.kvdbError ("gRPC error: " ++ f.details))
    ∧ grpc_create_snapshot (fun _ => .error f) = .error (.kvdbError ("gRPC error: " ++ f.details))
    ∧ grpc_release_snapshot (fun _ => .error f) snapshot
        = .error (.kvdbError ("gRPC error: " ++ f.details))
    ∧ grpc_get_at_snapshot (fun _ => .error f) k snapshot
        = .error (.kvdbError ("gRPC error: " ++ f.details))
    ∧ grpc_flush (fun _ => .error f) = .error (.kvdbError ("gRPC error: " ++ f.details))
    ∧ grpc_compact (fun _ => .error f) = .error (.kvdbError ("gRPC error: " ++ f.details))
    ∧ grpc_get_stats (fun _ => .error f) = .error (.kvdbError ("gRPC error: " ++ f.details))
    ∧ http_put base (fun _ _ => .requestException .timeoutExc m) k v
        = .error (.kvdbError ("HTTP error: " ++ m))
    ∧ http_get base (fun _ => .requestException .timeoutExc m) k
        = .error (.kvdbError ("HTTP error: " ++ m))
    ∧ http_delete base (fun _ => .requestException .timeoutExc m) k
        = .error (.kvdbError ("HTTP error: " ++ m))
    ∧ http_batch_put base (fun _ _ => .requestException .timeoutExc m) kvs
        = .error (.kvdbError ("HTTP error: " ++ m))
    ∧ http_batch_get base (fun _ _ => .requestException .timeoutExc m) keys
        = .error (.kvdbError ("HTTP error: " ++ m))
    ∧ http_scan base (fun _ _ => .requestException .timeoutExc m) options
        = .error (.kvdbError ("HTTP error: " ++ m))
    ∧ http_prefix_scan base (fun _ _ _ => .requestException .timeoutExc m) pfx limit
        = .error (.kvdbError ("HTTP error: " ++ m))
    ∧ http_create_snapshot base (fun _ => .requestException .timeoutExc m)
        = .error (.kvdbError ("HTTP error: " ++ m))
    ∧ http_release_snapshot base (fun _ => .requestException .timeoutExc m) snapshot
        = .error (.kvdbError ("HTTP error: " ++ m))
    ∧ http_get_at_snapshot base (fun _ => .requestException .timeoutExc m) k snapshot
        = .error (.kvdbError ("HTTP error: " ++ m))
    ∧ http_flush base (fun _ => .requestException .timeoutExc m)
        = .error (.kvdbError ("HTTP error: " ++ m))
    ∧ http_compact base (fun _ => .requestException .timeoutExc m)
        = .error (.kvdbError ("HTTP error: " ++ m))
    ∧ http_get_stats base (fun _ => .requestException .timeoutExc m)
        = .error (.kvdbError ("HTTP error: " ++ m))
    ∧ errorClass (.kvdbError ("gRPC error: " ++ f.details)) = ErrorClass.base
    ∧ ClientError.isTimeoutClass (.kvdbError ("gRPC error: " ++ f.details)) = false
    ∧ errorClass (.kvdbError ("HTTP error: " ++ m)) = ErrorClass.base
    ∧ ClientError.isTimeoutClass (.kvdbError ("HTTP error: " ++ m)) = false :=
  ⟨rfl, rfl, rfl, rfl, rfl, rfl, rfl, rfl, rfl, rfl, rfl, rfl, rfl, rfl, rfl,
   rfl, rfl, rfl, rfl, rfl, rfl, rfl, rfl, rfl, rfl, rfl, rfl, rfl, rfl, rfl⟩

/-- Witness for the amended claim C3 at a concrete deadline-exceeded fault. -/
theorem C3_timeout_amended_witness :
    grpc_put (fun _ => .error { code := StatusCode.deadlineExceeded, details := ("Deadline Exceeded") })
        ("k") ("v")
      = .error (.kvdbError ("gRPC error: " ++ "Deadline Exceeded")) :=
  (C3_timeout_amended { code := .deadlineExceeded, details := ("Deadline Exceeded") }
    ("k") ("v") ("b") ("p") ("m") [] [] {} 5 { snapshot_id := 1 } rfl).1

/-- Claim C4 fails as stated: with limit 1 in the request, a server stream of
two entries is materialized whole, so the length of the returned list is not
bounded by the limit. -/
theorem C4_counterexample :
    grpc_scan (fun _ => ([⟨"a", "1"⟩, ⟨"b", "2"⟩], none))
        { start_key := "", end_key := "", prefix_ := "", limit := 1, reverse := false }
      = .ok [⟨"a", "1"⟩, ⟨"b", "2"⟩]
    ∧ ({ start_key := "", end_key := "", prefix_ := "", limit := 1,
         reverse := false } : ScanOptions).limit = 1
    ∧ (([⟨"a", "1"⟩, ⟨"b", "2"⟩] : List KeyValue).length : Int) = 2
    ∧ decide ((2 : Int) ≤ 1) = false :=
  ⟨rfl, rfl, rfl, rfl⟩

/-- Claim C4, amended: scan and prefixScan return exactly the entries the
server streamed, in stream order, with no client-side re-sort and no
truncation; the limit is only forwarded in the request, so the returned list
is bounded by the limit exactly when the server streams at most that many
entries. -/
theorem C4_scan_amended (options : ScanOptions) (pfx base : String) (limit : Int)
    (entries : List KVPair) (h : (entries.length : Int) ≤ options.limit) :
    grpc_scan (fun _ => (entries, none)) options
      = .ok (entries.map (fun p => KeyValue.mk p.key p.value))
    ∧ http_scan base (fun _ _ => .response 200 { pairs := entries }) options
      = .ok (entries.map (fun p => KeyValue.mk p.key p.value))
    ∧ grpc_prefix_scan (fun _ => (entries, none)) pfx limit
      = .ok (entries.map (fun p => KeyValue.mk p.key p.value))
    ∧ http_prefix_scan base (fun _ _ _ => .response 200 { pairs := entries }) pfx limit
      = .ok (entries.map (fun p => KeyValue.mk p.key p.value))
    ∧ ((entries.map (fun p => KeyValue.mk p.key p.value)).length : Int) ≤ options.limit := by
  refine ⟨rfl, rfl, rfl, rfl, ?_⟩
  simpa using h

/-- Witness for the amended claim C4 at a concrete one-entry stream. -/
theorem C4_scan_amended_witness :
    grpc_scan (fun _ => (([⟨"a", "1"⟩] : List KVPair), none)) ({} : ScanOptions)
      = .ok (([⟨"a", "1"⟩] : List KVPair).map (fun p => KeyValue.mk p.key p.value)) :=
  (C4_scan_amended {} ("p") ("b") 3 [⟨"a", "1"⟩] (by decide)).1

/-- Claim C5: put and delete, on both transports, return True exactly when
the server response signals success; a non-success response raises KVDBError
carrying the server-reported message, a transport fault raises KVDBError
carrying the transport detail, and every call either returns True or raises
a KVDBError, never False and never a swallowed error. -/
theorem C5_put_delete_contract (k v msg em base : String) (f : RpcFailure) (knd : ReqExcKind)
    (stubP : PutRequest → Except RpcFailure AckResponse)
    (stubD : DeleteRequest → Except RpcFailure AckResponse)
    (sessP : String → String → HttpOutcome Unit)
    (sessD : String → HttpOutcome Unit) :
    grpc_put (fun _ => .ok { success := true, error_message := msg }) k v = .ok true
    ∧ grpc_put (fun _ => .ok { success := false, error_message := msg }) k v
        = .error (.kvdbError msg)
    ∧ grpc_put (fun _ => .error f) k v = .error (.kvdbError ("gRPC error: " ++ f.details))
    ∧ (grpc_put stubP k v = .ok true ∨ ∃ m, grpc_put stubP k v = .error (.kvdbError m))
    ∧ grpc_delete (fun _ => .ok { success := true, error_message := msg }) k = .ok true
    ∧ grpc_delete (fun _ => .ok { success := false, error_message := msg }) k
        = .error (.kvdbError msg)
    ∧ grpc_delete (fun _ => .error f) k = .error (.kvdbError ("gRPC error: " ++ f.details))
    ∧ (grpc_delete stubD k = .ok true ∨ ∃ m, grpc_delete stubD k = .error (.kvdbError m))
    ∧ http_put base (fun _ _ => .response 200 ()) k v = .ok true
    ∧ http_put base (fun _ _ => .response 500 ()) k v
        = .error (.kvdbError ("HTTP error: " ++ httpStatusDetail 500))
    ∧ http_put base (fun _ _ => .requestException knd em) k v
        = .error (.kvdbError ("HTTP error: " ++ em))
    ∧ (http_put base sessP k v = .ok true ∨ ∃ m, http_put base sessP k v = .error (.kvdbError m))
    ∧ http_delete base (fun _ => .response 200 ()) k = .ok true
    ∧ http_delete base (fun _ => .response 500 ()) k
        = .error (.kvdbError ("HTTP error: " ++ httpStatusDetail 500))
    ∧ http_delete base (fun _ => .requestException knd em) k
        = .error (.kvdbError ("HTTP error: " ++ em))
    ∧ (http_delete base sessD k = .ok true
        ∨ ∃ m, http_delete base sessD k = .error (.kvdbError m)) := by
  refine ⟨rfl, rfl, rfl, ?_, rfl, rfl, rfl, ?_, rfl, rfl, rfl, ?_, rfl, rfl, rfl, ?_⟩
  · rcases hs : stubP { key := k, value := v } with f2 | r
    · exact Or.inr ⟨("gRPC error: " ++ f2.details), by simp [grpc_put, hs]⟩
    · rcases r with ⟨s, em2⟩
      cases s
      · exact Or.inr ⟨em2, by simp [grpc_put, hs]⟩
      · exact Or.inl (by simp [grpc_put, hs])
  · rcases hs : stubD { key := k } with f2 | r
    · exact Or.inr ⟨("gRPC error: " ++ f2.details), by simp [grpc_delete, hs]⟩
    · rcases r with ⟨s, em2⟩
      cases s
      · exact Or.inr ⟨em2, by simp [grpc_delete, hs]⟩
      · exact Or.inl (by simp [grpc_delete, hs])
  · rcases hs : sessP (base ++ "/kv/" ++ k) v with ⟨status, b⟩ | ⟨knd2, m2⟩
    · by_cases hr : httpRaisesForStatus status = true
      · exact Or.inr ⟨("HTTP error: " ++ httpStatusDetail status), by simp [http_put, hs, hr]⟩
      · exact Or.inl (by simp [http_put, hs, hr])
    · exact Or.inr ⟨("HTTP error: " ++ m2), by simp [http_put, hs]⟩
  · rcases hs : sessD (base ++ "/kv/" ++ k) with ⟨status, b⟩ | ⟨knd2, m2⟩
    · by_cases hr : httpRaisesForStatus status = true
      · exact Or.inr ⟨("HTTP error: " ++ httpStatusDetail status), by simp [http_delete, hs, hr]⟩
      · exact Or.inl (by simp [http_delete, hs, hr])
    · exact Or.inr ⟨("HTTP error: " ++ m2), by simp [http_delete, hs]⟩

/-- Claim C6: on a client configured with any non-streaming transport
(protocol other than grpc), subscribe raises KVDBError immediately and
returns the client state unchanged: the subscription registry and the
counter are not mutated, and no transport behaviour enters the computation. -/
theorem C6_subscribe_requires_grpc (p : String) (st : ClientState) (hp : p ≠ "grpc") :
    subscribe p st
      = (st, .error (.kvdbError ("Subscription is only supported with gRPC protocol"))) := by
  simp [subscribe, hp]

/-- Witness for claim C6 on a concrete http-configured client state. -/
theorem C6_subscribe_requires_grpc_witness :
    subscribe ("http")
        { connected := false, subscriptions := [], counter := 0,
          channel := none, session := some true }
      = ({ connected := false, subscriptions := [], counter := 0,
           channel := none, session := some true },
         .error (.kvdbError ("Subscription is only supported with gRPC protocol"))) :=
  C6_subscribe_requires_grpc ("http") _ (by decide)

/-- Claim C7: cancel_subscription removes the id from the registry, and once
that has taken effect (membership reads false from loop check c onward), the
receive loop forwards no event received at index c or later: the forwarded
events are a prefix of the stream of length at most c, because the loop
checks registry membership before each callback and exits at the first
failed check. -/
theorem C7_cancel_stops_forwarding (member : Nat → Bool) (events : List Event) (c : Nat)
    (st : ClientState) (i : Nat)
    (hc : ∀ j, c ≤ j → member j = false) :
    (receive_loop member 0 events).length ≤ c
    ∧ receive_loop member 0 events = events.take ((receive_loop member 0 events).length)
    ∧ (cancel_subscription st i).subscriptions.contains i = false := by
  refine ⟨?_, receive_loop_take member events 0, ?_⟩
  · rcases receive_loop_length_le member c hc events 0 with h | h
    · omega
    · simp [h]
  · rw [cancel_subscription_subs]
    exact contains_filter_ne st.subscriptions i

/-- Witness for claim C7: cancellation effective from check 1 on forwards at
most the first event of a two-event stream. -/
theorem C7_cancel_stops_forwarding_witness :
    (receive_loop (fun j => decide (j < 1)) 0
        [⟨"k1", "v1", "put"⟩, ⟨"k2", "v2", "put"⟩]).length ≤ 1 :=
  (C7_cancel_stops_forwarding (fun j => decide (j < 1))
    [⟨"k1", "v1", "put"⟩, ⟨"k2", "v2", "put"⟩] 1
    { connected := true, subscriptions := [0], counter := 1,
      channel := some true, session := none } 0
    (by intro j hj; simp; omega)).1

/-- Claim C8: disconnect, and context-manager exit which just calls it,
leaves is_connected false for every protocol, cancels every owned
subscription leaving the registry empty, and closes the transport handle the
protocol owns whenever it exists (the gRPC channel, the HTTP session). -/
theorem C8_disconnect_cleanup (p : String) (st : ClientState) :
    is_connected (disconnect p st) = false
    ∧ (disconnect p st).subscriptions = []
    ∧ (disconnect ("grpc") st).channel = st.channel.map (fun _ => false)
    ∧ (disconnect ("http") st).session = st.session.map (fun _ => false)
    ∧ context_exit p st = disconnect p st :=
  ⟨disconnect_connected p st, disconnect_subs p st,
   disconnect_channel st, disconnect_session st, rfl⟩

/-- Claim C9: the result of scan does not depend on the reverse or prefix
fields of ScanOptions: two option records agreeing on start_key, end_key
and limit build the identical gRPC wire request and identical HTTP query
parameters, and, against the same server behaviour, produce identical
results on both transports; the documented reverse and prefix fields are
silently ignored. -/
theorem C9_scan_reverse_ignored (o1 o2 : ScanOptions)
    (stub : ScanRequest → List KVPair × Option RpcFailure)
    (base : String) (sess : String → ScanParams → HttpOutcome PairsBody)
    (h1 : o1.start_key = o2.start_key) (h2 : o1.end_key = o2.end_key)
    (h3 : o1.limit = o2.limit) :
    scanRequestOf o1 = scanRequestOf o2
    ∧ scanParamsOf o1 = scanParamsOf o2
    ∧ grpc_scan stub o1 = grpc_scan stub o2
    ∧ http_scan base sess o1 = http_scan base sess o2 := by
  have hr : scanRequestOf o1 = scanRequestOf o2 := by
    simp [scanRequestOf, h1, h2, h3]
  have hp : scanParamsOf o1 = scanParamsOf o2 := by
    simp [scanParamsOf, h1, h2, h3]
  refine ⟨hr, hp, ?_, ?_⟩
  · simp only [grpc_scan, hr]
  · simp only [http_scan, hp]

/-- Witness for claim C9 on two concrete option records differing only in
the reverse and prefix fields. -/
theorem C9_scan_reverse_ignored_witness :
    scanRequestOf { start_key := "a", end_key := "z", prefix_ := "", limit := 7, reverse := false }
      = scanRequestOf
          { start_key := "a", end_key := "z", prefix_ := "p", limit := 7, reverse := true } :=
  (C9_scan_reverse_ignored _ _ (fun _ => ([], none)) ("b")
    (fun _ _ => .response 200 { pairs := [] }) rfl rfl rfl).1

/-- Claim C10: construction succeeds exactly for the protocols grpc and
http, and any other protocol raises ValueError; consequently, for every
successfully constructed client, each of the thirteen facade operations
dispatches to a defined branch (the result is some value) instead of falling
through to the implicit None of Python. -/
theorem C10_protocol_validation (p : String) :
    initSucceeds p = (p == "grpc" || p == "http")
    ∧ ((p = "grpc" ∨ p = "http")
        ∨ client_init p = .error (.valueError ("Unsupported protocol: " ++ p)))
    ∧ (∀ stub base sess k v2, (KVDBClient.put p stub base sess k v2).isSome = (p == "grpc" || p == "http"))
    ∧ (∀ stub base sess k, (KVDBClient.get p stub base sess k).isSome = (p == "grpc" || p == "http"))
    ∧ (∀ stub base sess k, (KVDBClient.delete p stub base sess k).isSome = (p == "grpc" || p == "http"))
    ∧ (∀ stub base sess kvs, (KVDBClient.batch_put p stub base sess kvs).isSome = (p == "grpc" || p == "http"))
    ∧ (∀ stub base sess keys,
        (KVDBClient.batch_get p stub base sess keys).isSome = (p == "grpc" || p == "http"))
    ∧ (∀ stub base sess options, (KVDBClient.scan p stub base sess options).isSome = (p == "grpc" || p == "http"))
    ∧ (∀ stub base sess pfx limit,
        (KVDBClient.prefix_scan p stub base sess pfx limit).isSome = (p == "grpc" || p == "http"))
    ∧ (∀ stub base sess, (KVDBClient.create_snapshot p stub base sess).isSome = (p == "grpc" || p == "http"))
    ∧ (∀ stub base sess snapshot,
        (KVDBClient.release_snapshot p stub base sess snapshot).isSome = (p == "grpc" || p == "http"))
    ∧ (∀ stub base sess k snapshot,
        (KVDBClient.get_at_snapshot p stub base sess k snapshot).isSome = (p == "grpc" || p == "http"))
    ∧ (∀ stub base sess, (KVDBClient.flush p stub base sess).isSome = (p == "grpc" || p == "http"))
    ∧ (∀ stub base sess, (KVDBClient.compact p stub base sess).isSome = (p == "grpc" || p == "http"))
    ∧ (∀ stub base sess, (KVDBClient.get_stats p stub base sess).isSome = (p == "grpc" || p == "http")) := by
  by_cases hg : p = "grpc"
  · subst hg
    simp [initSucceeds, client_init, KVDBClient.put, KVDBClient.get, KVDBClient.delete,
      KVDBClient.batch_put, KVDBClient.batch_get, KVDBClient.scan, KVDBClient.prefix_scan,
      KVDBClient.create_snapshot, KVDBClient.release_snapshot, KVDBClient.get_at_snapshot,
      KVDBClient.flush, KVDBClient.compact, KVDBClient.get_stats]
  · by_cases hh : p = "http"
    · subst hh
      simp [initSucceeds, client_init, KVDBClient.put, KVDBClient.get, KVDBClient.delete,
        KVDBClient.batch_put, KVDBClient.batch_get, KVDBClient.scan, KVDBClient.prefix_scan,
        KVDBClient.create_snapshot, KVDBClient.release_snapshot, KVDBClient.get_at_snapshot,
        KVDBClient.flush, KVDBClient.compact, KVDBClient.get_stats, hg]
    · refine ⟨?_, Or.inr ?_, ?_, ?_, ?_, ?_, ?_, ?_, ?_, ?_, ?_, ?_, ?_, ?_, ?_⟩ <;>
        simp [initSucceeds, client_init, KVDBClient.put, KVDBClient.get, KVDBClient.delete,
          KVDBClient.batch_put, KVDBClient.batch_get, KVDBClient.scan, KVDBClient.prefix_scan,
          KVDBClient.create_snapshot, KVDBClient.release_snapshot, KVDBClient.get_at_snapshot,
          KVDBClient.flush, KVDBClient.compact, KVDBClient.get_stats, hg, hh]
